import Mathlib

/-!
Verification of the streaming transform pipeline of the Video-encoder
repository (src/bot/utils/stream_processor.py, ffmpeg_stream.py,
ffmpeg_utils.py, progress_tracker.py).

The embedding below translates the control flow of
VideoStreamProcessor.process_with_ffmpeg / stream_from_telegram /
process_video_stream into an executable Lean model that records the run
as a trace of events, together with the terminal result and the final
state of the child process.  Pure helper functions
(calculate_video_dimensions, estimate_output_size) are translated
directly, with Python float arithmetic modelled by exact rationals.
-/

namespace StreamProc

/-- A byte chunk: a list of byte values.  Mirrors the `bytes` objects
streamed through the pipeline. -/
abbrev Chunk := List Nat

/-- `self.chunk_size = 1024 * 1024` (stream_processor.py line 14). -/
def chunk_size : Nat := 1024 * 1024

/-- `self.max_file_size = 2 * 1024 * 1024 * 1024` (stream_processor.py line 15). -/
def max_file_size : Nat := 2 * 1024 * 1024 * 1024

/-- `self.processing_timeout = 300` seconds (stream_processor.py line 16). -/
def processing_timeout : Nat := 300

/-- The asyncio write-side high-water mark / OS pipe capacity (64 KiB):
the number of buffered, unconsumed bytes past which a blocking write
(an awaited `drain()`) would suspend the writer.  Used by the stalled
feeder model for the process's stdin transport. -/
def pipe_capacity : Nat := 65536

/-- Total unconsumed stdout a child can emit before its write blocks:
asyncio reads the child's stdout eagerly — the StreamReader accepts up
to twice its 64 KiB limit before pausing the transport — and the OS
pipe holds another 64 KiB, so only past 3 * 64 KiB = 196608 unread
bytes does the child's stdout write actually block.  Used to decide
whether an abandoned child process is still running. -/
def stdout_buffer_capacity : Nat := 3 * 65536

/-- The drain loop of process_with_ffmpeg (lines 70-77): repeatedly
`await process.stdout.read(self.chunk_size)` until an empty read, so the
process's stdout byte stream is delivered as successive slices of at
most `chunk_size` bytes, in order. -/
def readChunks (s : List Nat) : List Chunk :=
  if h : s = [] then []
  else s.take chunk_size :: readChunks (s.drop chunk_size)
termination_by s.length
decreasing_by
  have hpos : 0 < s.length := List.length_pos.mpr h
  simp only [List.length_drop, chunk_size]
  omega

/-- Concatenating the chunks the drain loop yields reproduces the
process's stdout byte stream exactly. -/
theorem readChunks_flatten (s : List Nat) : (readChunks s).flatten = s := by
  rw [readChunks]
  split
  · simp [*]
  · rw [List.flatten_cons, readChunks_flatten (s.drop chunk_size), List.take_append_drop]
termination_by s.length
decreasing_by
  have hpos : 0 < s.length := List.length_pos.mpr (by assumption)
  simp only [List.length_drop, chunk_size]
  omega

/-- Observable events of one pipeline run, in the order they occur. -/
inductive Ev where
  /-- `asyncio.create_subprocess_exec(*ffmpeg_cmd, ...)` (line 45). -/
  | spawn
  /-- The `file_size > self.max_file_size` check raising inside
  stream_from_telegram (lines 23-25), at the feeder's first pull. -/
  | sizeCheckFail
  /-- `process.stdin.write(chunk)` in feed_input (line 57). -/
  | writeChunk (c : Chunk)
  /-- `process.stdin.close()` after the input stream is exhausted (line 62). -/
  | closeStdin
  /-- `yield chunk` of the drain loop (line 75). -/
  | yieldChunk (c : Chunk)
  /-- `await asyncio.wait_for(process.wait(), timeout=...)` (line 86). -/
  | awaitExit
  /-- `await process.stderr.read()` (line 89). -/
  | readStderr
  /-- `process.kill()` in an exception handler (lines 96, 100). -/
  | kill
  /-- GeneratorExit thrown into the generator when the consumer stops
  consuming the output stream mid-drain. -/
  | genExit
  deriving Repr, DecidableEq

/-- Error kinds a run can surface (wrapped as RuntimeError in the code). -/
inductive EKind where
  /-- Non-zero exit code: `FFmpeg processing failed: {stderr}` (line 92). -/
  | transformFailed
  /-- `asyncio.TimeoutError` from wait_for (lines 94-97). -/
  | timeout
  /-- An error raised inside feed_input and surfaced at `await feed_task`. -/
  | feederError
  deriving Repr, DecidableEq

/-- Terminal observation of a run of process_with_ffmpeg as seen by its
consumer. -/
inductive RunResult where
  /-- The generator finished normally. -/
  | success
  /-- A RuntimeError propagated to the consumer; `diag` is the diagnostic
  byte string the error carries (the full captured stderr for
  `transformFailed`). -/
  | errored (kind : EKind) (diag : List Nat)
  /-- The run never returns: a read blocks forever. -/
  | hung
  /-- The consumer stopped consuming mid-drain and the generator was
  closed via GeneratorExit. -/
  | abandoned
  deriving Repr, DecidableEq

/-- State of the child process after the run is over (or permanently
wedged). -/
inductive ProcState where
  | running
  | exitedSelf
  | killed
  deriving Repr, DecidableEq

/-- One run configuration: the inputs that determine the code's control
flow.  The child process is modelled as an ffmpeg-like batch transform:
it exits (and its stdout reaches end-of-stream) only once its stdin has
been closed, after writing `procOut` to stdout and `procStderr` to
stderr, returning exit code `procExit`; `procExitInTime` says whether
`process.wait()` completes within `processing_timeout` once awaited. -/
structure Config where
  /-- `message.video.file_size` (line 23). -/
  fileSize : Nat
  /-- The chunks `client.stream_media(message)` yields (line 27). -/
  inputChunks : List Chunk
  /-- Bytes the process writes to stdout. -/
  procOut : List Nat
  /-- Bytes the process writes to stderr. -/
  procStderr : List Nat
  /-- The process's exit code (`process.returncode`). -/
  procExit : Nat
  /-- Whether `process.wait()` returns within the 300 s wait_for budget. -/
  procExitInTime : Bool
  /-- `some k`: the consumer of the output generator stops consuming
  after `k` yielded chunks; `none`: the consumer drains everything. -/
  consumerAbortsAfter : Option Nat
  deriving Repr, DecidableEq

/-- Trace, result and final process state of one run. -/
structure RunOutcome where
  trace : List Ev
  result : RunResult
  procState : ProcState
  deriving Repr, DecidableEq

/-- Events of a run that drains the whole output: spawn (line 45), the
feeder's writes in input order followed by closing stdin (lines 53-62),
and the drain loop's yields in output order (lines 70-77).  Feeder
events are serialized before drainer events; none of the theorems below
depend on cross-task interleaving. -/
def completedTrace (cfg : Config) : List Ev :=
  Ev.spawn :: (cfg.inputChunks.map Ev.writeChunk ++
    Ev.closeStdin :: (readChunks cfg.procOut).map Ev.yieldChunk)

/-- Tail of the run after the drain loop saw end-of-stream and
`await feed_task` returned (lines 82-101): `wait_for(process.wait(), 300)`
either times out (kill, timeout error, lines 94-97) or returns; then
stderr is read in full and a non-zero exit code raises
`FFmpeg processing failed` carrying the whole stderr text (lines 89-92),
re-wrapped and preceded by `process.kill()` in the outer handler
(lines 98-101) — a kill after natural exit is a no-op, so the process
state stays `exitedSelf` there. -/
def runCompleted (cfg : Config) : RunOutcome :=
  if cfg.procExitInTime then
    if cfg.procExit ≠ 0 then
      { trace := completedTrace cfg ++ [Ev.awaitExit, Ev.readStderr, Ev.kill]
        result := .errored .transformFailed cfg.procStderr
        procState := .exitedSelf }
    else
      { trace := completedTrace cfg ++ [Ev.awaitExit, Ev.readStderr]
        result := .success
        procState := .exitedSelf }
  else
    { trace := completedTrace cfg ++ [Ev.awaitExit, Ev.kill]
      result := .errored .timeout []
      procState := .killed }

/-- The full run of process_with_ffmpeg driven by its consumer
(send_processed_video via process_video_stream).

Control flow translated from the source: the two async generators are
lazy, so nothing runs until the consumer first iterates the output
stream; the generator body then spawns the process (line 45) and only
afterwards starts feed_task (line 65), whose first pull from
stream_from_telegram performs the `file_size > max_file_size` check
(lines 23-25).  If that check fails, the feeder dies before writing or
closing stdin, the exception stays stored in the task, the process never
receives input so it never exits, and the drain loop blocks forever on
`process.stdout.read` — the run hangs with the process running.

If the consumer stops consuming after `k` chunks while output remains,
GeneratorExit is thrown at the yield point; it is not an `Exception`
subclass, so neither `except` handler (lines 94-101) runs: no kill, and
the process is left running if more unconsumed output remains than
asyncio's eager buffering absorbs (`stdout_buffer_capacity`: the
StreamReader accepts 2 x 64 KiB before pausing the transport, plus the
64 KiB OS pipe) — it then blocks writing forever; with less remaining it
drains into those buffers and exits on its own. -/
def runPipeline (cfg : Config) : RunOutcome :=
  if max_file_size < cfg.fileSize then
    { trace := [Ev.spawn, Ev.sizeCheckFail]
      result := .hung
      procState := .running }
  else
    match cfg.consumerAbortsAfter with
    | some k =>
      if k < (readChunks cfg.procOut).length then
        { trace := Ev.spawn :: (cfg.inputChunks.map Ev.writeChunk ++
            Ev.closeStdin :: (((readChunks cfg.procOut).take k).map Ev.yieldChunk ++ [Ev.genExit]))
          result := .abandoned
          procState :=
            if stdout_buffer_capacity <
              cfg.procOut.length - ((readChunks cfg.procOut).take k).flatten.length
            then .running else .exitedSelf }
      else runCompleted cfg
    | none => runCompleted cfg

/-- Bytes an event contributes to the drained output stream. -/
def evBytes : Ev → List Nat
  | Ev.yieldChunk c => c
  | _ => []

/-- Concatenation of all chunks yielded to the consumer, in yield order. -/
def yieldedBytes (t : List Ev) : List Nat := (t.map evBytes).flatten

theorem yieldedBytes_append (a b : List Ev) :
    yieldedBytes (a ++ b) = yieldedBytes a ++ yieldedBytes b := by
  simp [yieldedBytes]

theorem yieldedBytes_writes (l : List Chunk) :
    (List.map (evBytes ∘ Ev.writeChunk) l).flatten = [] := by
  induction l with
  | nil => rfl
  | cons c t ih => simpa [evBytes, Function.comp] using ih

theorem yieldedBytes_yields (l : List Chunk) :
    (List.map (evBytes ∘ Ev.yieldChunk) l).flatten = l.flatten := by
  induction l with
  | nil => rfl
  | cons c t ih => simp [evBytes, Function.comp, ih]

/-- A run that drains the whole output delivers exactly the process's
stdout bytes to the consumer. -/
theorem yieldedBytes_completedTrace (cfg : Config) :
    yieldedBytes (completedTrace cfg) = cfg.procOut := by
  simp [completedTrace, yieldedBytes, evBytes, yieldedBytes_writes,
    yieldedBytes_yields, readChunks_flatten]

theorem yieldedBytes_runCompleted (cfg : Config) :
    yieldedBytes (runCompleted cfg).trace = cfg.procOut := by
  have hc := yieldedBytes_completedTrace cfg
  simp only [yieldedBytes] at hc
  unfold runCompleted
  split
  · split <;> simp [yieldedBytes, evBytes, hc]
  · simp [yieldedBytes, evBytes, hc]

/-- Claim C1 (amended): when the declared size exceeds the 2 GiB limit the
size check raises inside the feeder before any chunk is written to the
transform process, but only after the process has already been spawned —
process creation (line 45) precedes the feeder task that performs the
check at its first pull of the lazy source generator (lines 23-25, 65);
the feeder dies before closing stdin, so the run hangs in the drain loop
with the process still running, and no error is ever surfaced. -/
theorem C1_size_check_after_spawn (cfg : Config) (h : max_file_size < cfg.fileSize) :
    (runPipeline cfg).trace = [Ev.spawn, Ev.sizeCheckFail] ∧
    (runPipeline cfg).result = RunResult.hung ∧
    (runPipeline cfg).procState = ProcState.running ∧
    ∀ c : Chunk, Ev.writeChunk c ∉ (runPipeline cfg).trace := by
  rw [runPipeline, if_pos h]
  refine ⟨rfl, rfl, rfl, ?_⟩
  intro c
  simp

/-- An oversized descriptor: one byte past the 2 GiB maximum. -/
def oversizedCfg : Config :=
  { fileSize := max_file_size + 1, inputChunks := [], procOut := [], procStderr := [],
    procExit := 0, procExitInTime := true, consumerAbortsAfter := none }

/-- Claim C1 counterexample: for a descriptor whose declared size is
`max_allowed_size + 1` the transform process IS spawned — the spawn
event occurs even though the size limit is exceeded, refuting "the
external transform process is never spawned". -/
theorem C1_counterexample :
    max_file_size < oversizedCfg.fileSize ∧ Ev.spawn ∈ (runPipeline oversizedCfg).trace := by
  constructor
  · simp [oversizedCfg]
  · rw [runPipeline, if_pos (by simp [oversizedCfg])]
    simp

/-- Claim C1 witness: the amended theorem instantiated at the concrete
oversized descriptor. -/
theorem C1_witness :
    (runPipeline oversizedCfg).trace = [Ev.spawn, Ev.sizeCheckFail] ∧
    (runPipeline oversizedCfg).result = RunResult.hung ∧
    (runPipeline oversizedCfg).procState = ProcState.running ∧
    ∀ c : Chunk, Ev.writeChunk c ∉ (runPipeline oversizedCfg).trace :=
  C1_size_check_after_spawn oversizedCfg (by simp [oversizedCfg])

/-- Claim C2 (amended): the 300 s timeout guards only the final await of
process exit (`asyncio.wait_for(process.wait(), ...)`, line 86), which is
reached only after the feeder has completed and the output has been fully
drained; a run (with a non-oversized descriptor and a consumer that
drains everything) returns the Timeout failure exactly when that final
wait exceeds the budget, and on that path the process is killed.  The
feeding and draining phases themselves are subject to no timeout. -/
theorem C2_timeout_only_on_exit_wait (cfg : Config) (hs : cfg.fileSize ≤ max_file_size)
    (hc : cfg.consumerAbortsAfter = none) :
    ((runPipeline cfg).result = RunResult.errored EKind.timeout [] ↔
      cfg.procExitInTime = false) ∧
    (cfg.procExitInTime = false → (runPipeline cfg).procState = ProcState.killed) := by
  have h1 : ¬ max_file_size < cfg.fileSize := Nat.not_lt.mpr hs
  simp only [runPipeline, if_neg h1, hc]
  unfold runCompleted
  rcases ht : cfg.procExitInTime with _ | _
  · simp
  · by_cases he : cfg.procExit ≠ 0 <;> simp [he]

/-- Claim C6 (amended): a run whose process exits with a non-zero code
fails with the transform-failed error carrying the captured stderr text
in full — there is no truncation, so the diagnostic grows without bound
with the child's stderr (`await process.stderr.read()`, line 89, reads
everything). -/
theorem C6_nonzero_exit_full_stderr (cfg : Config) (hs : cfg.fileSize ≤ max_file_size)
    (hc : cfg.consumerAbortsAfter = none) (ht : cfg.procExitInTime = true)
    (he : cfg.procExit ≠ 0) :
    (runPipeline cfg).result = RunResult.errored EKind.transformFailed cfg.procStderr := by
  have h1 : ¬ max_file_size < cfg.fileSize := Nat.not_lt.mpr hs
  simp only [runPipeline, if_neg h1, hc]
  unfold runCompleted
  rw [ht]
  simp [he]

/-- A failing process whose stderr is one byte longer than 64 KiB. -/
def bigStderrCfg : Config :=
  { fileSize := 0, inputChunks := [], procOut := [], procStderr := List.replicate 65537 7,
    procExit := 1, procExitInTime := true, consumerAbortsAfter := none }

/-- Claim C6 counterexample: a process exiting non-zero with 65537 bytes
on stderr produces an error whose diagnostic text is all 65537 bytes —
strictly more than the claimed 64 KiB (65536-byte) bound, refuting "the
diagnostic text is truncated to a bounded size". -/
theorem C6_counterexample :
    (runPipeline bigStderrCfg).result =
      RunResult.errored EKind.transformFailed bigStderrCfg.procStderr ∧
    65536 < bigStderrCfg.procStderr.length := by
  constructor
  · have h1 : ¬ max_file_size < bigStderrCfg.fileSize := Nat.not_lt.mpr (Nat.zero_le _)
    have hc : bigStderrCfg.consumerAbortsAfter = none := rfl
    have ht : bigStderrCfg.procExitInTime = true := rfl
    have he : bigStderrCfg.procExit ≠ 0 := Nat.one_ne_zero
    simp only [runPipeline, if_neg h1, hc]
    unfold runCompleted
    rw [ht]
    simp [he]
  · show 65536 < (List.replicate 65537 (7 : Nat)).length
    rw [List.length_replicate]
    norm_num

/-- Claim C6 witness: the amended theorem at a concrete failing run. -/
theorem C6_witness :
    (runPipeline ⟨0, [], [], [7, 7], 1, true, none⟩).result =
      RunResult.errored EKind.transformFailed [7, 7] :=
  C6_nonzero_exit_full_stderr ⟨0, [], [], [7, 7], 1, true, none⟩ (by simp [max_file_size])
    rfl rfl (by simp)

/-- Claim C7: for every run that is not rejected by the size check and
whose consumer drains the whole stream, concatenating the chunks in the
order the drainer yields them reproduces exactly the byte sequence the
transform process wrote to its stdout — no reordering, drops or
duplication (the drain loop, lines 70-77, yields each `read` result
directly and in order). -/
theorem C7_output_ordering (cfg : Config) (hs : cfg.fileSize ≤ max_file_size)
    (hc : cfg.consumerAbortsAfter = none) :
    yieldedBytes (runPipeline cfg).trace = cfg.procOut := by
  have h1 : ¬ max_file_size < cfg.fileSize := Nat.not_lt.mpr hs
  simp only [runPipeline, if_neg h1, hc]
  exact yieldedBytes_runCompleted cfg

/-- Claim C7 witness: a concrete run whose process writes bytes 1,2,3. -/
theorem C7_witness :
    yieldedBytes (runPipeline ⟨0, [[9]], [1, 2, 3], [], 0, true, none⟩).trace = [1, 2, 3] :=
  C7_output_ordering ⟨0, [[9]], [1, 2, 3], [], 0, true, none⟩ (by simp [max_file_size]) rfl

/-- Claim C8: a zero-byte source (declared size 0, no chunks) is a valid
run: the size check passes, the feeder closes the process input
immediately after the empty stream with no writes, and if the process
accepts the empty input and exits cleanly with code 0 within the budget,
the run completes with success. -/
theorem C8_zero_length_input (cfg : Config) (h0 : cfg.fileSize = 0)
    (hin : cfg.inputChunks = []) (he : cfg.procExit = 0) (ht : cfg.procExitInTime = true)
    (hc : cfg.consumerAbortsAfter = none) :
    (runPipeline cfg).result = RunResult.success ∧
    (runPipeline cfg).trace =
      Ev.spawn :: Ev.closeStdin ::
        ((readChunks cfg.procOut).map Ev.yieldChunk ++ [Ev.awaitExit, Ev.readStderr]) := by
  have h1 : ¬ max_file_size < cfg.fileSize := by
    rw [h0]; exact Nat.not_lt.mpr (Nat.zero_le _)
  simp only [runPipeline, if_neg h1, hc]
  unfold runCompleted
  rw [ht]
  simp [he, completedTrace, hin]

/-- Claim C8 witness: the concrete empty run (process emits nothing and
exits 0) completes successfully. -/
theorem C8_witness :
    (runPipeline ⟨0, [], [], [], 0, true, none⟩).result = RunResult.success ∧
    (runPipeline ⟨0, [], [], [], 0, true, none⟩).trace =
      Ev.spawn :: Ev.closeStdin ::
        ((readChunks []).map Ev.yieldChunk ++ [Ev.awaitExit, Ev.readStderr]) :=
  C8_zero_length_input ⟨0, [], [], [], 0, true, none⟩ rfl rfl rfl rfl rfl

/-- Claim C2 witness: a run whose process exit is not observed within the
budget returns the timeout failure with the process killed. -/
theorem C2_witness :
    ((runPipeline ⟨0, [], [], [], 0, false, none⟩).result =
        RunResult.errored EKind.timeout [] ↔
      (⟨0, [], [], [], 0, false, none⟩ : Config).procExitInTime = false) ∧
    ((⟨0, [], [], [], 0, false, none⟩ : Config).procExitInTime = false →
      (runPipeline ⟨0, [], [], [], 0, false, none⟩).procState = ProcState.killed) :=
  C2_timeout_only_on_exit_wait ⟨0, [], [], [], 0, false, none⟩ (Nat.zero_le _) rfl

/-- Wall-clock durations of the three awaited activities of one run:
the feeder task, the drain loop, and the final `process.wait()`.  Only
the last of these is wrapped in `asyncio.wait_for` (line 86); nothing
bounds the first two. -/
structure RunDurations where
  feedDur : Nat
  drainDur : Nat
  exitWaitDur : Nat
  deriving Repr, DecidableEq

/-- Whether the code raises `asyncio.TimeoutError`: only the await of
process exit is guarded by the 300 s budget (line 86), so a timeout
fires exactly when that single phase overruns — the feeder and drainer
durations are irrelevant. -/
def raisesTimeout (d : RunDurations) : Bool :=
  decide (processing_timeout < d.exitWaitDur)

/-- Total wall-clock time of the run: feeder and drainer run
concurrently, then the exit wait runs (cut off at the budget). -/
def runElapsed (d : RunDurations) : Nat :=
  max d.feedDur d.drainDur + min d.exitWaitDur processing_timeout

/-- Claim C2 counterexample: a run whose feeder and drainer each take
1000 s (the process exiting instantly afterwards) finishes without any
timeout failure even though the 300 s budget elapsed long before feeder
completion, drainer completion and process exit had all occurred —
refuting "a single overall wall-clock timeout governs the entire run". -/
theorem C2_counterexample :
    raisesTimeout ⟨1000, 1000, 0⟩ = false ∧
    processing_timeout < runElapsed ⟨1000, 1000, 0⟩ := by
  constructor
  · decide
  · decide

/-- State of the feeder's writes into the process stdin transport:
bytes sitting in the write buffer that the (stalled) process has not
consumed, and how many times the feeder suspended waiting for the buffer
to empty. -/
structure FeedState where
  buffered : Nat
  suspensions : Nat
  deriving Repr, DecidableEq

/-- One `process.stdin.write(chunk)` (line 57): an asyncio
StreamWriter.write only appends the bytes to the transport's internal
buffer and returns immediately; the code never awaits
`process.stdin.drain()`, so the feeder never suspends on a full
buffer. -/
def writeNoDrain (st : FeedState) (c : Chunk) : FeedState :=
  { buffered := st.buffered + c.length, suspensions := st.suspensions }

/-- The feed_input loop (lines 53-62) run against a process that
consumes nothing (a stalled downstream). -/
def feedInputStalled (chunks : List Chunk) : FeedState :=
  chunks.foldl writeNoDrain { buffered := 0, suspensions := 0 }

theorem feedInputStalled_foldl (chunks : List Chunk) (b s : Nat) :
    chunks.foldl writeNoDrain ⟨b, s⟩ = ⟨b + (chunks.map List.length).sum, s⟩ := by
  induction chunks generalizing b with
  | nil => simp
  | cons c t ih => simp [List.foldl_cons, writeNoDrain, ih, Nat.add_assoc]

theorem feedInputStalled_eq (chunks : List Chunk) :
    feedInputStalled chunks = ⟨(chunks.map List.length).sum, 0⟩ := by
  have h := feedInputStalled_foldl chunks 0 0
  rw [Nat.zero_add] at h
  exact h

/-- Claim C4 (amended): the feeder's write never suspends — it appends
each chunk to the stdin transport buffer and returns at once, with no
`drain()` await anywhere in the loop; against a stalled process the
buffered bytes therefore grow to the entire input size, for every input:
internal buffering is unbounded and no backpressure reaches the
feeder. -/
theorem C4_no_backpressure (chunks : List Chunk) :
    feedInputStalled chunks =
      { buffered := (chunks.map List.length).sum, suspensions := 0 } := by
  simpa using feedInputStalled_foldl chunks 0 0

/-- Claim C4 counterexample: feeding three 64 KiB chunks to a stalled
process leaves 192 KiB buffered — far past the 64 KiB transport/pipe
capacity at which a blocking write would have suspended — while the
feeder suspended zero times, refuting "the feeder's write suspends the
feeder task until the process's input buffer accepts the bytes". -/
theorem C4_counterexample :
    (feedInputStalled
      [List.replicate 65536 0, List.replicate 65536 0, List.replicate 65536 0]).suspensions = 0 ∧
    pipe_capacity <
      (feedInputStalled
        [List.replicate 65536 0, List.replicate 65536 0, List.replicate 65536 0]).buffered := by
  rw [feedInputStalled_eq]
  constructor
  · rfl
  · simp only [List.map_cons, List.map_nil, List.length_replicate, List.sum_cons,
      List.sum_nil]
    norm_num [pipe_capacity]

/-- Duration of the feed_input loop (lines 55-60): for each chunk the
feeder writes it (`writeCost`) and then awaits
`progress_callback(total_bytes, None)` inline (`cbCost`) before pulling
the next chunk — the callback is on the data path, not fire-and-forget. -/
def feedLoopDur (chunks : List Chunk) (writeCost cbCost : Nat) : Nat :=
  chunks.foldl (fun acc _ => acc + (writeCost + cbCost)) 0

/-- Duration of the drain loop (lines 70-77): for each output chunk the
drainer reads and yields it (`readCost`) and then awaits
`progress_callback(None, output_bytes)` inline (`cbCost`) before the
next read. -/
def drainLoopDur (outChunks : List Chunk) (readCost cbCost : Nat) : Nat :=
  outChunks.foldl (fun acc _ => acc + (readCost + cbCost)) 0

theorem foldl_add_const {α : Type} (l : List α) (k b : Nat) :
    l.foldl (fun acc _ => acc + k) b = b + l.length * k := by
  induction l generalizing b with
  | nil => simp
  | cons x t ih => rw [List.foldl_cons, ih, List.length_cons]; ring

/-- Claim C5 (amended): progress notification is awaited inline on the
data path — both loops await the observer callback after every chunk, so
every loop iteration's duration includes the callback's full duration
and a slow observer delays the feeder's next write and the drainer's
next read by exactly its duration per chunk. -/
theorem C5_callback_on_data_path (chunks outChunks : List Chunk) (wc rc cb : Nat) :
    feedLoopDur chunks wc cb = chunks.length * (wc + cb) ∧
    drainLoopDur outChunks rc cb = outChunks.length * (rc + cb) := by
  constructor <;> simp [feedLoopDur, drainLoopDur, foldl_add_const]

/-- Claim C5 counterexample: with a 1-unit write and a 100-unit observer
callback, feeding one chunk occupies the data path for 101 units instead
of 1 (and likewise for the drainer) — the observer throttles the data
path, refuting "progress notification is fire-and-forget". -/
theorem C5_counterexample :
    feedLoopDur [[0]] 1 100 = 101 ∧ feedLoopDur [[0]] 1 0 = 1 ∧
    drainLoopDur [[0]] 1 100 = 101 ∧ drainLoopDur [[0]] 1 0 = 1 :=
  ⟨rfl, rfl, rfl, rfl⟩

/-- The `target_heights` table of calculate_video_dimensions
(ffmpeg_stream.py lines 245-249), with the membership test of line 251:
`some` for a supported resolution, `none` otherwise. -/
def targetHeight? (r : String) : Option Nat :=
  if r = "720p" then some 720
  else if r = "480p" then some 480
  else if r = "360p" then some 360
  else none

/-- calculate_video_dimensions (ffmpeg_stream.py lines 233-264):
`aspect_ratio = original_width / original_height;
target_width = int(target_height * aspect_ratio)` — modelled in exact
arithmetic as floor((target_height * ow) / oh) — then both dimensions
are bumped to the next integer if odd; an unsupported resolution raises
ValueError, modelled as `Except.error`. -/
def calculate_video_dimensions (ow oh : Nat) (target : String) :
    Except String (Nat × Nat) :=
  match targetHeight? target with
  | none => Except.error ("Unsupported resolution: " ++ target)
  | some th =>
      Except.ok
        ((if (th * ow / oh) % 2 ≠ 0 then th * ow / oh + 1 else th * ow / oh),
         (if th % 2 ≠ 0 then th + 1 else th))

/-- Bumping an odd number to its successor yields an even number. -/
theorem evenFix (n : Nat) : (if n % 2 ≠ 0 then n + 1 else n) % 2 = 0 := by
  rcases Nat.mod_two_eq_zero_or_one n with h | h
  · simp [h]
  · simp only [h]
    norm_num
    omega

/-- Claim C9: for every positive original width and height,
calculate_video_dimensions returns, for each supported resolution, a
pair whose components are both even, whose height is exactly the
resolution's nominal height (720/480/360 per `targetHeight?`), and it
returns the ValueError for every other resolution string. -/
theorem C9_dimensions (ow oh : Nat) (hw : 0 < ow) (hh : 0 < oh) (r : String) :
    (∀ th, targetHeight? r = some th →
      calculate_video_dimensions ow oh r =
        Except.ok
          ((if (th * ow / oh) % 2 ≠ 0 then th * ow / oh + 1 else th * ow / oh), th) ∧
      (if (th * ow / oh) % 2 ≠ 0 then th * ow / oh + 1 else th * ow / oh) % 2 = 0 ∧
      th % 2 = 0) ∧
    (targetHeight? r = none →
      calculate_video_dimensions ow oh r =
        Except.error ("Unsupported resolution: " ++ r)) := by
  constructor
  · intro th hth
    have hth3 : th = 720 ∨ th = 480 ∨ th = 360 := by
      unfold targetHeight? at hth
      split_ifs at hth <;> simp_all
    have hthe : th % 2 = 0 := by rcases hth3 with h | h | h <;> simp [h]
    refine ⟨?_, evenFix _, hthe⟩
    unfold calculate_video_dimensions
    rw [hth]
    have hne : ¬ th % 2 ≠ 0 := by simp [hthe]
    simp [hne]
  · intro hnone
    unfold calculate_video_dimensions
    rw [hnone]

/-- Claim C9 witness: a 1920x1080 video encoded to 720p gets even
dimensions with the nominal 720 height. -/
theorem C9_witness :
    (∀ th, targetHeight? "720p" = some th →
      calculate_video_dimensions 1920 1080 "720p" =
        Except.ok
          ((if (th * 1920 / 1080) % 2 ≠ 0 then th * 1920 / 1080 + 1 else th * 1920 / 1080),
            th) ∧
      (if (th * 1920 / 1080) % 2 ≠ 0 then th * 1920 / 1080 + 1 else th * 1920 / 1080) % 2 =
        0 ∧
      th % 2 = 0) ∧
    (targetHeight? "720p" = none →
      calculate_video_dimensions 1920 1080 "720p" =
        Except.error ("Unsupported resolution: " ++ "720p")) :=
  C9_dimensions 1920 1080 (by norm_num) (by norm_num) "720p"

/-- estimate_output_size (ffmpeg_utils.py lines 112-136), with Python
float multipliers modelled as the exact rationals they denote; sizes are
rationals.  An `encode` operation with an unrecognised resolution falls
through to the final `return input_size`, as in the source. -/
def estimate_output_size (input_size : ℚ) (operation : String)
    (resolution : Option String) : ℚ :=
  if operation = "encode" then
    if resolution = some "720p" then input_size * 0.6
    else if resolution = some "480p" then input_size * 0.4
    else if resolution = some "360p" then input_size * 0.25
    else input_size
  else if operation = "extract_audio" then input_size * 0.1
  else if operation = "add_audio" ∨ operation = "embed_subtitles" then input_size * 1.1
  else input_size

/-- Claim C10: estimate_output_size is a pure function (hence
deterministic); for every fixed operation and resolution it is monotone
nondecreasing in the input size, and for nonnegative input it never
exceeds 1.1 times the input size (every multiplier lies in [0, 1.1]). -/
theorem C10_estimate (operation : String) (resolution : Option String) (x y : ℚ)
    (hx : 0 ≤ x) (hxy : x ≤ y) :
    estimate_output_size x operation resolution ≤
      estimate_output_size y operation resolution ∧
    estimate_output_size x operation resolution ≤ 1.1 * x := by
  unfold estimate_output_size
  split_ifs <;> constructor <;> nlinarith [hx, hxy]

/-- Claim C10 witness: the 720p encode estimate at sizes 100 and 200. -/
theorem C10_witness :
    estimate_output_size 100 "encode" (some "720p") ≤
      estimate_output_size 200 "encode" (some "720p") ∧
    estimate_output_size 100 "encode" (some "720p") ≤ 1.1 * 100 :=
  C10_estimate "encode" (some "720p") 100 200 (by norm_num) (by norm_num)

end StreamProc
